import Mathlib

/-!
Verification of the akbari-editor AI-assisted rich-text editor core.

The document is modelled as a flat list of characters (the spec's "flat
text-position space"); the tiptap editor widget is modelled by the four
operations the code uses: read the current selection, read the text between
two offsets, replace the content between two offsets, and export the full
document.  Streaming completion responses are modelled as a list of chunks
(each chunk carrying a possibly-empty textual delta together with a flag
telling whether the document dispatch for that chunk succeeds) followed by
an optional terminal stream error.
-/

namespace AkbariEditor

/-- A document, or any piece of text, as a flat list of characters. -/
abbrev Doc := List Char

/-- A role-tagged message sent to the completion endpoint
(`createMessages` / `sendMessage` in the source build these). -/
structure Message where
  role : String
  content : Doc
deriving DecidableEq, Repr

/-- The request issued by `getGroqChatCompletion` in
`src/composables/use-groq` (src/unnamed/part_000): the fields passed to
`groq.chat.completions.create`. -/
structure GroqRequest where
  messages : List Message
  model : String
  stream : Bool
  temperature : ℚ
  max_tokens : Nat
deriving DecidableEq

/-- `getGroqChatCompletion(messages)` from src/unnamed/part_000: builds the
one streaming request `{messages, model: 'llama3-8b-8192', stream: true,
temperature: 0.7, max_tokens: 1024}`. -/
def getGroqChatCompletion (messages : List Message) : GroqRequest :=
  { messages := messages
    model := "llama3-8b-8192"
    stream := true
    temperature := 7/10
    max_tokens := 1024 }

/-- `SelectionRange` interface from the source: the captured
`{ from, to }` offset pair. -/
structure SelectionRange where
  fromPos : Nat
  toPos : Nat
deriving DecidableEq, Repr

/-- The tiptap editor widget as used by the code: its document text and its
current live selection (`editor.state.selection.from/to`). -/
structure EditorModel where
  doc : Doc
  selFrom : Nat
  selTo : Nat
deriving DecidableEq, Repr

/-- The component's mutable state: the `editor` ref (possibly not yet
initialized), `editorState.selectionRange` (the captured range), and the
`state` ref `{ isStreaming, error, insertedLength }`. -/
structure AppState where
  editor : Option EditorModel
  selectionRange : Option SelectionRange
  isStreaming : Bool
  error : Option String
  insertedLength : Nat
deriving DecidableEq, Repr

/-- `hasSelection` computed: false when the editor ref is unset, otherwise
`from !== to` on the live selection. -/
def hasSelection (st : AppState) : Bool :=
  match st.editor with
  | none => false
  | some ed => ed.selFrom != ed.selTo

/-- `doc.textBetween(from, to)`: the text between two offsets of the flat
document. -/
def textBetween (d : Doc) (a b : Nat) : Doc :=
  (d.take b).drop a

/-- `getSelectedText()`: empty when the editor ref or the captured
`selectionRange` is unset, otherwise the text between the captured
offsets. -/
def getSelectedText (st : AppState) : Doc :=
  match st.editor, st.selectionRange with
  | some ed, some sr => textBetween ed.doc sr.fromPos sr.toPos
  | _, _ => []

/-- `tr.replaceWith(from, to, text)`: replace the content of the window
`[a, b)` of the document with the given text. -/
def replaceWith (d : Doc) (a b : Nat) (s : Doc) : Doc :=
  d.take a ++ s ++ d.drop b

/-- `replaceSelection(newText)`: no-op when the editor ref or the captured
range is unset; otherwise replaces the window
`[captured.from, captured.from + insertedLength)` with `newText` and sets
`insertedLength` to `newText.length`.  The transaction dispatch may throw
(modelled by `dispatchOk = false`): the error is caught, recorded as
`'Error replacing selection'`, and the state is otherwise unchanged. -/
def replaceSelection (st : AppState) (newText : Doc) (dispatchOk : Bool) :
    AppState :=
  match st.editor, st.selectionRange with
  | some ed, some sr =>
    if dispatchOk then
      { st with
        editor := some { ed with
          doc := replaceWith ed.doc sr.fromPos (sr.fromPos + st.insertedLength)
            newText }
        insertedLength := newText.length }
    else
      { st with error := some "Error replacing selection" }
  | _, _ => st

/-- `createMessages(selectedText)` for the summarize action: the
system-instruction message and the user message quoting the selected
text. -/
def createMessages (selectedText : Doc) : List Message :=
  [ { role := "system"
      content := ("You are a helpful writing assistant. Summarize the given text while maintaining its core meaning. Keep your response focused and concise.").data }
  , { role := "user"
      content := ("Summarize this text: \"").data ++ selectedText ++ ("\"").data } ]

/-- One received chunk: the textual delta `chunk.choices[0]?.delta?.content
|| ''` together with whether the document dispatch for this chunk
succeeds. -/
abbrev Chunk := Doc × Bool

/-- The concatenation of the textual deltas of a chunk list. -/
def concatFragments : List Chunk → Doc
  | [] => []
  | c :: rest => c.1 ++ concatFragments rest

/-- The `for await (const chunk of chatStream)` loop body shared by all AI
actions: on each chunk with non-empty content, append the content to the
accumulated text and replace the captured window with the full accumulated
text; chunks with empty content are skipped. -/
def streamLoop (st : AppState) (acc : Doc) : List Chunk → AppState
  | [] => st
  | (content, ok) :: rest =>
    if content.isEmpty then streamLoop st acc rest
    else streamLoop (replaceSelection st (acc ++ content) ok) (acc ++ content) rest

/-- The `finally` block of every AI action: clear the streaming flag, the
captured selection range, and `insertedLength`. -/
def finallyReset (st : AppState) : AppState :=
  { st with isStreaming := false, selectionRange := none, insertedLength := 0 }

/-- `summarize()` from the source: guard on `hasSelection`/`isStreaming`,
capture the selection, build the messages, issue the request, consume the
stream, and reset in `finally`.  `chunks` are the deltas the stream yields
before it either ends normally (`streamError = none`) or throws
(`streamError = some msg`; this also covers `getGroqChatCompletion` itself
rejecting, with `chunks = []`).  Returns the final state together with the
request issued, if any. -/
def summarize (st : AppState) (chunks : List Chunk)
    (streamError : Option String) : AppState × Option GroqRequest :=
  if !hasSelection st || st.isStreaming then (st, none)
  else
    let st1 := { st with isStreaming := true, error := none, insertedLength := 0 }
    match st.editor with
    | none =>
      (finallyReset { st1 with error := some "Editor is not initialized." }, none)
    | some ed =>
      let st2 := { st1 with selectionRange := some ⟨ed.selFrom, ed.selTo⟩ }
      let selectedText := getSelectedText st2
      if selectedText.isEmpty then
        (finallyReset { st2 with error := some "No text selected." }, none)
      else
        let req := getGroqChatCompletion (createMessages selectedText)
        let st3 := streamLoop st2 [] chunks
        match streamError with
        | some msg => (finallyReset { st3 with error := some msg }, some req)
        | none => (finallyReset st3, some req)

/-- The `Summarize` quick-action handler from `quickActions` (a duplicated
body identical to `summarize` with the messages built inline). -/
def summarizeHandler (st : AppState) (chunks : List Chunk)
    (streamError : Option String) : AppState × Option GroqRequest :=
  if !hasSelection st || st.isStreaming then (st, none)
  else
    let st1 := { st with isStreaming := true, error := none, insertedLength := 0 }
    match st.editor with
    | none =>
      (finallyReset { st1 with error := some "Editor is not initialized." }, none)
    | some ed =>
      let st2 := { st1 with selectionRange := some ⟨ed.selFrom, ed.selTo⟩ }
      let selectedText := getSelectedText st2
      if selectedText.isEmpty then
        (finallyReset { st2 with error := some "No text selected." }, none)
      else
        let messages : List Message :=
          [ { role := "system"
              content := ("You are a helpful writing assistant. Summarize the given text while maintaining its core meaning. Keep your response focused and concise.").data }
          , { role := "user"
              content := ("Summarize this text: \"").data ++ selectedText ++ ("\"").data } ]
        let req := getGroqChatCompletion messages
        let st3 := streamLoop st2 [] chunks
        match streamError with
        | some msg => (finallyReset { st3 with error := some msg }, some req)
        | none => (finallyReset st3, some req)

/-- The `Improve` quick-action handler from `quickActions` (same duplicated
body, different system instruction and user-prompt wording). -/
def improveHandler (st : AppState) (chunks : List Chunk)
    (streamError : Option String) : AppState × Option GroqRequest :=
  if !hasSelection st || st.isStreaming then (st, none)
  else
    let st1 := { st with isStreaming := true, error := none, insertedLength := 0 }
    match st.editor with
    | none =>
      (finallyReset { st1 with error := some "Editor is not initialized." }, none)
    | some ed =>
      let st2 := { st1 with selectionRange := some ⟨ed.selFrom, ed.selTo⟩ }
      let selectedText := getSelectedText st2
      if selectedText.isEmpty then
        (finallyReset { st2 with error := some "No text selected." }, none)
      else
        let messages : List Message :=
          [ { role := "system"
              content := ("You are a helpful writing assistant. Improve the given text while maintaining its core meaning. Make it more clear, concise, and engaging.").data }
          , { role := "user"
              content := ("Improve this text: \"").data ++ selectedText ++ ("\"").data } ]
        let req := getGroqChatCompletion messages
        let st3 := streamLoop st2 [] chunks
        match streamError with
        | some msg => (finallyReset { st3 with error := some msg }, some req)
        | none => (finallyReset st3, some req)

/-- The `Complete` quick-action handler from `quickActions` (same duplicated
body, different system instruction and user-prompt wording). -/
def completeHandler (st : AppState) (chunks : List Chunk)
    (streamError : Option String) : AppState × Option GroqRequest :=
  if !hasSelection st || st.isStreaming then (st, none)
  else
    let st1 := { st with isStreaming := true, error := none, insertedLength := 0 }
    match st.editor with
    | none =>
      (finallyReset { st1 with error := some "Editor is not initialized." }, none)
    | some ed =>
      let st2 := { st1 with selectionRange := some ⟨ed.selFrom, ed.selTo⟩ }
      let selectedText := getSelectedText st2
      if selectedText.isEmpty then
        (finallyReset { st2 with error := some "No text selected." }, none)
      else
        let messages : List Message :=
          [ { role := "system"
              content := ("You are a helpful writing assistant. Complete the given text in a natural and coherent way that follows from the existing content.").data }
          , { role := "user"
              content := ("Complete this text naturally: \"").data ++ selectedText ++ ("\"").data } ]
        let req := getGroqChatCompletion messages
        let st3 := streamLoop st2 [] chunks
        match streamError with
        | some msg => (finallyReset { st3 with error := some msg }, some req)
        | none => (finallyReset st3, some req)

/-- A chat transcript entry (`ChatMessage` interface in the source). -/
structure ChatMessage where
  role : String
  content : Doc
deriving DecidableEq, Repr

/-- The chat panel's mutable state: the transcript, the input box text and
the loading flag. -/
structure ChatState where
  chatMessages : List ChatMessage
  newMessage : Doc
  isChatLoading : Bool
deriving DecidableEq, Repr

/-- `editor.getHTML()`: the full-document export.  Serialization markup is
abstracted away; the export is the document's text. -/
def getHTML (ed : EditorModel) : Doc :=
  ed.doc

/-- JavaScript `String.prototype.trim`: strip leading and trailing
whitespace. -/
def trim (l : Doc) : Doc :=
  ((l.dropWhile Char.isWhitespace).reverse.dropWhile Char.isWhitespace).reverse

/-- The system-message template literal built by `sendMessage`: the selected
text is embedded only when `currentSelection` is non-empty; the full
document export is always embedded. -/
def chatSystemContent (currentSelection editorContent : Doc) : Doc :=
  ("You are a helpful writing assistant. You have access to the following context:\n          ").data
  ++ (if currentSelection.isEmpty then []
      else ("- Selected text: \"").data ++ currentSelection ++ ("\"").data)
  ++ ("\n          - Full document: \"").data ++ editorContent
  ++ ("\"\n          \n          Help the user with their writing by providing specific, contextual answers.\n          When referring to text, you can quote relevant parts to make your answers clearer.").data

/-- The concatenation of a list of deltas. -/
def concatDocs : List Doc → Doc
  | [] => []
  | c :: rest => c ++ concatDocs rest

/-- The chat response accumulation loop: `if (content) response += content`
over the received deltas. -/
def chatAccumulate (acc : Doc) : List Doc → Doc
  | [] => acc
  | c :: rest =>
    if c.isEmpty then chatAccumulate acc rest else chatAccumulate (acc ++ c) rest

/-- `sendMessage(text, selectedText = '')` from the source: return
unchanged when the trimmed text is empty; otherwise set the loading flag,
push the user message, build the grounded system+user message pair, issue
the request, accumulate the streamed response, and push it as one assistant
message once the stream is exhausted.  A stream failure
(`streamError = some e`) is caught and logged: no assistant message is
pushed.  The `finally` block clears the loading flag and the input box.
Returns the new chat state and the request issued, if any. -/
def sendMessage (st : AppState) (chat : ChatState) (text selectedText : Doc)
    (chunks : List Doc) (streamError : Option String) :
    ChatState × Option GroqRequest :=
  if (trim text).isEmpty then (chat, none)
  else
    let chat1 := { chat with
      isChatLoading := true
      chatMessages := chat.chatMessages
        ++ [({ role := "user", content := text } : ChatMessage)] }
    let editorContent := match st.editor with
      | some ed => getHTML ed
      | none => []
    let currentSelection :=
      if selectedText.isEmpty then getSelectedText st else selectedText
    let messages : List Message :=
      [ { role := "system"
          content := chatSystemContent currentSelection editorContent }
      , { role := "user", content := text } ]
    let req := getGroqChatCompletion messages
    let response := chatAccumulate [] chunks
    match streamError with
    | some _ =>
      (({ chat1 with isChatLoading := false, newMessage := [] } : ChatState),
        some req)
    | none =>
      (({ chat1 with
          chatMessages :=
            chat1.chatMessages
              ++ [({ role := "assistant", content := response } : ChatMessage)]
          isChatLoading := false
          newMessage := [] } : ChatState), some req)

/-- `seg` occurs contiguously inside `outer`. -/
def containsSeg (outer seg : Doc) : Prop :=
  ∃ s t, outer = s ++ seg ++ t

/-- The content of the system message (first message) of an optionally
issued request; empty when no request was issued. -/
def requestSystemContent : Option GroqRequest → Doc
  | some r =>
    match r.messages with
    | m :: _ => m.content
    | [] => []
  | none => []

/-- Replacing the window that covers exactly the middle segment of
`pre ++ acc ++ post` yields `pre ++ s ++ post`. -/
theorem replaceWith_mid (pre acc post s : Doc) :
    replaceWith (pre ++ acc ++ post) pre.length (pre.length + acc.length) s
      = pre ++ s ++ post := by
  unfold replaceWith
  have h1 : (pre ++ acc ++ post).take pre.length = pre := by
    rw [List.append_assoc]
    exact List.take_left pre (acc ++ post)
  have h2 : (pre ++ acc ++ post).drop (pre.length + acc.length) = post := by
    have h := List.drop_left (pre ++ acc) post
    rwa [List.length_append] at h
  rw [h1, h2]

/-- Closed form of the streaming loop when every dispatch succeeds: starting
from a document `pre ++ acc ++ post` whose tracked window
`[pre.length, pre.length + acc.length)` holds the accumulated text `acc`,
consuming the chunks extends the window content by the concatenation of all
fragments and grows `insertedLength` accordingly; all other state fields
are untouched. -/
theorem streamLoop_spec (chunks : List Chunk) :
    ∀ (st : AppState) (ed : EditorModel) (sr : SelectionRange)
      (pre post acc : Doc),
    st.editor = some ed → st.selectionRange = some sr →
    sr.fromPos = pre.length → ed.doc = pre ++ acc ++ post →
    st.insertedLength = acc.length →
    (∀ c ∈ chunks, c.2 = true) →
    streamLoop st acc chunks =
      { st with
        editor := some { ed with
          doc := pre ++ acc ++ concatFragments chunks ++ post }
        insertedLength := acc.length + (concatFragments chunks).length } := by
  induction chunks with
  | nil =>
    intro st ed sr pre post acc hed hsr hfrom hdoc hlen _
    obtain ⟨sedit, ssr, sstr, serr, silen⟩ := st
    obtain ⟨d, f, t⟩ := ed
    simp only [streamLoop, concatFragments]
    simp_all
  | cons c rest ih =>
    obtain ⟨content, ok⟩ := c
    intro st ed sr pre post acc hed hsr hfrom hdoc hlen hok
    have hoktrue : ok = true := hok (content, ok) (List.mem_cons_self _ _)
    subst hoktrue
    have hok' : ∀ c ∈ rest, c.2 = true :=
      fun c hm => hok c (List.mem_cons_of_mem _ hm)
    obtain ⟨sedit, ssr, sstr, serr, silen⟩ := st
    obtain ⟨d, f, t⟩ := ed
    obtain ⟨sf, stt⟩ := sr
    simp only at hed hsr hdoc hlen hfrom
    subst hed hsr hdoc hlen hfrom
    by_cases hc : content = []
    · subst hc
      simp only [streamLoop, List.isEmpty_nil, if_true]
      rw [ih _ _ ⟨pre.length, stt⟩ pre post acc rfl rfl rfl rfl rfl hok']
      simp [concatFragments]
    · have hcne : content.isEmpty = false := by
        simp [List.isEmpty_iff, hc]
      simp only [streamLoop, hcne, Bool.false_eq_true, if_false]
      have hrepl :
          replaceSelection
            ⟨some ⟨pre ++ acc ++ post, f, t⟩, some ⟨pre.length, stt⟩,
              sstr, serr, acc.length⟩ (acc ++ content) true
            = ⟨some ⟨pre ++ (acc ++ content) ++ post, f, t⟩,
                some ⟨pre.length, stt⟩, sstr, serr,
                (acc ++ content).length⟩ := by
        simp only [replaceSelection, if_true]
        rw [replaceWith_mid]
      rw [hrepl,
        ih _ _ ⟨pre.length, stt⟩ pre post (acc ++ content) rfl rfl rfl rfl rfl
          hok']
      simp [concatFragments, List.append_assoc, Nat.add_assoc]

/-- The text between exactly the middle segment's offsets is that
segment. -/
theorem textBetween_mid (pre mid post : Doc) :
    textBetween (pre ++ mid ++ post) pre.length (pre.length + mid.length)
      = mid := by
  unfold textBetween
  have h1 : (pre ++ mid ++ post).take (pre.length + mid.length) = pre ++ mid := by
    have h := List.take_left (pre ++ mid) post
    rwa [List.length_append] at h
  rw [h1]
  exact List.drop_left pre mid

/-- The chat accumulation loop appends the concatenation of all deltas. -/
theorem chatAccumulate_eq (l : List Doc) :
    ∀ acc, chatAccumulate acc l = acc ++ concatDocs l := by
  induction l with
  | nil => intro acc; simp [chatAccumulate, concatDocs]
  | cons c rest ih =>
    intro acc
    by_cases hc : c = []
    · subst hc
      simp [chatAccumulate, concatDocs, ih]
    · have hcne : c.isEmpty = false := by simp [List.isEmpty_iff, hc]
      simp [chatAccumulate, concatDocs, hcne, ih]

/-- The document held by the editor ref, empty when the ref is unset. -/
def editorDoc (st : AppState) : Doc :=
  match st.editor with
  | some ed => ed.doc
  | none => []

/-- Claim C1: during a streaming operation, on each received fragment the
accumulated text is extended by the fragment, the document window
`[captured.start, captured.start + insertedLength)` is replaced with the
full accumulated text, and afterwards `insertedLength` equals the length of
the accumulated text.  Stated as one step of the streaming loop, at an
arbitrary point (`acc`, `st`) of an arbitrary operation, for a fragment
whose dispatch succeeds. -/
theorem streamLoop_fragment_step (st : AppState) (ed : EditorModel)
    (sr : SelectionRange) (acc content : Doc) (rest : List Chunk)
    (hed : st.editor = some ed) (hsr : st.selectionRange = some sr)
    (hc : content ≠ []) :
    streamLoop st acc ((content, true) :: rest)
      = streamLoop
          { st with
            editor := some { ed with
              doc := replaceWith ed.doc sr.fromPos
                (sr.fromPos + st.insertedLength) (acc ++ content) }
            insertedLength := (acc ++ content).length }
          (acc ++ content) rest := by
  have hcne : content.isEmpty = false := by simp [List.isEmpty_iff, hc]
  have hrepl : replaceSelection st (acc ++ content) true
      = { st with
          editor := some { ed with
            doc := replaceWith ed.doc sr.fromPos
              (sr.fromPos + st.insertedLength) (acc ++ content) }
          insertedLength := (acc ++ content).length } := by
    simp [replaceSelection, hed, hsr]
  simp only [streamLoop, hcne, Bool.false_eq_true, if_false, hrepl]

/-- Claim C2: for every ordered fragment sequence applied from the captured
initial state (`insertedLength = 0`, window start at the captured offset),
the final content of the replaced range
`[captured.start, captured.start + insertedLength)` equals the
concatenation of all fragments, and the final document is independent of
how the same text is split into fragments. -/
theorem streamLoop_split_independent (st : AppState) (ed : EditorModel)
    (sr : SelectionRange) (pre post : Doc) (chunks1 chunks2 : List Chunk)
    (hed : st.editor = some ed) (hsr : st.selectionRange = some sr)
    (hfrom : sr.fromPos = pre.length) (hdoc : ed.doc = pre ++ post)
    (hlen : st.insertedLength = 0)
    (hok1 : ∀ c ∈ chunks1, c.2 = true) (hok2 : ∀ c ∈ chunks2, c.2 = true)
    (hcc : concatFragments chunks1 = concatFragments chunks2) :
    streamLoop st [] chunks1 = streamLoop st [] chunks2
    ∧ textBetween (editorDoc (streamLoop st [] chunks1)) sr.fromPos
        (sr.fromPos + (streamLoop st [] chunks1).insertedLength)
        = concatFragments chunks1 := by
  have hdoc' : ed.doc = pre ++ [] ++ post := by simpa using hdoc
  have hlen' : st.insertedLength = List.length ([] : Doc) := by simpa using hlen
  have e1 := streamLoop_spec chunks1 st ed sr pre post [] hed hsr hfrom hdoc'
    hlen' hok1
  have e2 := streamLoop_spec chunks2 st ed sr pre post [] hed hsr hfrom hdoc'
    hlen' hok2
  constructor
  · rw [e1, e2, hcc]
  · rw [e1]
    simp only [editorDoc, hfrom, List.nil_append, List.length_nil,
      Nat.zero_add]
    simpa using textBetween_mid pre (concatFragments chunks1) post

/-- Claim C3: while a streaming operation is active (`isStreaming = true`),
triggering any AI action (summarize, or the Summarize / Improve / Complete
quick actions) is a no-op: the state is unchanged and no completion request
is issued. -/
theorem active_trigger_noop (st : AppState) (chunks : List Chunk)
    (streamError : Option String) (hactive : st.isStreaming = true) :
    summarize st chunks streamError = (st, none)
    ∧ summarizeHandler st chunks streamError = (st, none)
    ∧ improveHandler st chunks streamError = (st, none)
    ∧ completeHandler st chunks streamError = (st, none) := by
  unfold summarize summarizeHandler improveHandler completeHandler
  simp [hactive]

/-- Claim C4: for an empty selection (selection start equals selection
end), triggering any AI action is a no-op: no completion request is
issued, and the state — including the error field — is unchanged. -/
theorem empty_selection_noop (st : AppState) (ed : EditorModel)
    (chunks : List Chunk) (streamError : Option String)
    (hed : st.editor = some ed) (hemp : ed.selFrom = ed.selTo) :
    summarize st chunks streamError = (st, none)
    ∧ summarizeHandler st chunks streamError = (st, none)
    ∧ improveHandler st chunks streamError = (st, none)
    ∧ completeHandler st chunks streamError = (st, none) := by
  have hsel : hasSelection st = false := by simp [hasSelection, hed, hemp]
  unfold summarize summarizeHandler improveHandler completeHandler
  simp [hsel]

/-- Claim C5: when the document dispatch fails for one fragment, the error
is caught and recorded as the replace-failure error, the state is otherwise
unchanged (document and `insertedLength` kept), and the streaming loop
continues with the remaining fragments, which are processed exactly as they
would be from the error-recorded state (so every subsequent fragment still
attempts a replacement). -/
theorem replace_failure_continues (st : AppState) (ed : EditorModel)
    (sr : SelectionRange) (acc content : Doc) (rest : List Chunk)
    (hed : st.editor = some ed) (hsr : st.selectionRange = some sr)
    (hc : content ≠ []) :
    streamLoop st acc ((content, false) :: rest)
      = streamLoop ({ st with error := some "Error replacing selection" })
          (acc ++ content) rest
    ∧ ({ st with error := some "Error replacing selection" } : AppState).editor
        = st.editor
    ∧ ({ st with
          error := some "Error replacing selection" } : AppState).insertedLength
        = st.insertedLength := by
  have hcne : content.isEmpty = false := by simp [List.isEmpty_iff, hc]
  have hrepl : replaceSelection st (acc ++ content) false
      = { st with error := some "Error replacing selection" } := by
    simp [replaceSelection, hed, hsr]
  refine ⟨?_, rfl, rfl⟩
  simp only [streamLoop, hcne, Bool.false_eq_true, if_false, hrepl]

/-- Claim C7: every invocation of the completion client issues exactly one
streaming request carrying the given messages with `stream = true` and the
fixed constants `model = llama3-8b-8192`, `temperature = 0.7`,
`max_tokens = 1024`, none of which depend on the input messages or any
other state. -/
theorem completion_request_constants (messages : List Message) :
    (getGroqChatCompletion messages).messages = messages
    ∧ (getGroqChatCompletion messages).stream = true
    ∧ (getGroqChatCompletion messages).model = "llama3-8b-8192"
    ∧ (getGroqChatCompletion messages).temperature = 7/10
    ∧ (getGroqChatCompletion messages).max_tokens = 1024 :=
  ⟨rfl, rfl, rfl, rfl, rfl⟩

/-- Claim C6: every streaming operation that is triggered (non-empty live
selection, not already streaming) returns the state machine to Idle —
`isStreaming = false`, the captured selection range cleared,
`insertedLength = 0` — on EVERY ending: exhaustion of the chunk sequence,
a stream failure, any pattern of mid-stream dispatch failures, and the
`No text selected.` abort, since the reset part assumes nothing about the
chunks, the stream outcome or the selected text.  Additionally, on a
completion failure after fragments whose dispatches succeeded, the
fragments already applied remain in the document and the failure is
recorded as the final error. -/
theorem summarize_resets_to_idle (st : AppState) (chunks : List Chunk)
    (streamError : Option String)
    (hact : hasSelection st = true) (hstr : st.isStreaming = false) :
    ((summarize st chunks streamError).1.isStreaming = false
      ∧ (summarize st chunks streamError).1.selectionRange = none
      ∧ (summarize st chunks streamError).1.insertedLength = 0)
    ∧ (∀ (ed : EditorModel) (pre post : Doc) (msg : String),
        st.editor = some ed →
        ed.selFrom = pre.length → ed.doc = pre ++ post →
        textBetween ed.doc ed.selFrom ed.selTo ≠ [] →
        (∀ c ∈ chunks, c.2 = true) →
        (summarize st chunks (some msg)).1.editor
            = some { ed with doc := pre ++ concatFragments chunks ++ post }
          ∧ (summarize st chunks (some msg)).1.error = some msg) := by
  obtain ⟨sedit, ssr, sstr, serr, silen⟩ := st
  simp only at hstr
  subst hstr
  cases sedit with
  | none => simp [hasSelection] at hact
  | some ed =>
    simp only [hasSelection] at hact
    constructor
    · unfold summarize
      simp only [hasSelection, hact, Bool.not_true, Bool.false_or,
        Bool.or_false, Bool.false_eq_true, if_false]
      rcases streamError with _ | msg <;> split <;> simp [finallyReset]
    · intro ed' pre post msg hed hfrom hdoc hsel hok
      simp only [Option.some.injEq] at hed
      subst hed
      obtain ⟨d, f, t⟩ := ed
      simp only at hact hfrom hdoc hsel
      subst hfrom hdoc
      have hselne : (textBetween (pre ++ post) pre.length t).isEmpty = false := by
        simpa [List.isEmpty_iff] using hsel
      have hloop := streamLoop_spec chunks
        ⟨some ⟨pre ++ post, pre.length, t⟩, some ⟨pre.length, t⟩, true, none, 0⟩
        ⟨pre ++ post, pre.length, t⟩ ⟨pre.length, t⟩ pre post []
        rfl rfl rfl (by simp) rfl hok
      unfold summarize
      simp only [hasSelection, hact, Bool.not_true, Bool.false_or,
        Bool.false_eq_true, if_false, getSelectedText, hselne, hloop]
      simp [finallyReset]

/-- Claim C9: the three quick-action handlers (Summarize / Improve /
Complete) realize the same state machine: for every state, chunk sequence
and stream outcome they produce the same final state (hence the same
document mutations) and also agree with the standalone `summarize`; their
issued requests agree on everything except the message texts (same
presence, model, stream flag, temperature, token limit and role
sequence). -/
theorem quick_actions_same_state_machine (st : AppState)
    (chunks : List Chunk) (streamError : Option String) :
    (summarizeHandler st chunks streamError).1
      = (improveHandler st chunks streamError).1
    ∧ (improveHandler st chunks streamError).1
      = (completeHandler st chunks streamError).1
    ∧ (summarizeHandler st chunks streamError).1
      = (summarize st chunks streamError).1
    ∧ ((summarizeHandler st chunks streamError).2.map
        (fun r => (r.model, r.stream, r.temperature, r.max_tokens,
          r.messages.map Message.role))
      = (improveHandler st chunks streamError).2.map
        (fun r => (r.model, r.stream, r.temperature, r.max_tokens,
          r.messages.map Message.role))
    ∧ (improveHandler st chunks streamError).2.map
        (fun r => (r.model, r.stream, r.temperature, r.max_tokens,
          r.messages.map Message.role))
      = (completeHandler st chunks streamError).2.map
        (fun r => (r.model, r.stream, r.temperature, r.max_tokens,
          r.messages.map Message.role))) := by
  cases hguard : (!hasSelection st || st.isStreaming) with
  | true =>
    unfold summarizeHandler improveHandler completeHandler summarize
    simp [hguard]
  | false =>
    cases hed : st.editor with
    | none =>
      unfold summarizeHandler improveHandler completeHandler summarize
      simp [hguard, hed]
    | some ed =>
      cases hsel2 : (textBetween ed.doc ed.selFrom ed.selTo).isEmpty with
      | true =>
        unfold summarizeHandler improveHandler completeHandler summarize
        simp [hguard, hed, getSelectedText, hsel2]
      | false =>
        unfold summarizeHandler improveHandler completeHandler summarize
        rcases streamError with _ | msg <;>
          simp [hguard, hed, getSelectedText, hsel2, getGroqChatCompletion,
            createMessages]

/-- In the chat system message, the full document export always occurs as
a contiguous segment. -/
theorem chatSystemContent_embeds_doc (sel d : Doc) :
    containsSeg (chatSystemContent sel d) d := by
  refine ⟨("You are a helpful writing assistant. You have access to the following context:\n          ").data
    ++ (if sel.isEmpty then []
        else ("- Selected text: \"").data ++ sel ++ ("\"").data)
    ++ ("\n          - Full document: \"").data,
    ("\"\n          \n          Help the user with their writing by providing specific, contextual answers.\n          When referring to text, you can quote relevant parts to make your answers clearer.").data, ?_⟩
  simp [chatSystemContent, List.append_assoc]

/-- In the chat system message, a non-empty selection occurs as a
contiguous segment. -/
theorem chatSystemContent_embeds_sel (sel d : Doc) (h : sel ≠ []) :
    containsSeg (chatSystemContent sel d) sel := by
  have hne : sel.isEmpty = false := by simp [List.isEmpty_iff, h]
  refine ⟨("You are a helpful writing assistant. You have access to the following context:\n          ").data
    ++ ("- Selected text: \"").data,
    ("\"").data ++ ("\n          - Full document: \"").data ++ d
    ++ ("\"\n          \n          Help the user with their writing by providing specific, contextual answers.\n          When referring to text, you can quote relevant parts to make your answers clearer.").data, ?_⟩
  simp [chatSystemContent, hne, List.append_assoc]

/-- Counterexample to claim C8 as stated: when a selection exists, the
grounding context embedded in the request is NOT just the selected text —
the full document export is always embedded as well.  With the same
non-empty selection and the same input text, two different documents yield
different system-message contents, so the embedded context depends on the
document even when a selection exists; the second conjunct exhibits the
full document export occurring verbatim inside the system message built
for a chat send with a selection. -/
theorem chat_grounding_counterexample :
    requestSystemContent
        (sendMessage
          ⟨some ⟨("first document").data, 0, 0⟩, none, false, none, 0⟩
          ⟨[], [], false⟩ ("hi").data ("sel").data [] none).2
      ≠ requestSystemContent
        (sendMessage
          ⟨some ⟨("other document").data, 0, 0⟩, none, false, none, 0⟩
          ⟨[], [], false⟩ ("hi").data ("sel").data [] none).2
    ∧ containsSeg
        (requestSystemContent
          (sendMessage
            ⟨some ⟨("first document").data, 0, 0⟩, none, false, none, 0⟩
            ⟨[], [], false⟩ ("hi").data ("sel").data [] none).2)
        (("first document").data) := by
  constructor
  · decide
  · have h := chatSystemContent_embeds_doc (("sel").data)
      (("first document").data)
    simpa [sendMessage, requestSystemContent, getGroqChatCompletion, getHTML,
      trim] using h

/-- Claim C8 (amended): on every chat send with non-blank text, the full
document export is always embedded in the system message as grounding
context; when a selection exists the selected text is embedded in
addition; the user message is appended to the transcript on send, and the
assistant message is appended only once, after the entire streamed
response has been accumulated, carrying the concatenation of all received
deltas. -/
theorem sendMessage_grounding (st : AppState) (ed : EditorModel)
    (chat : ChatState) (text selectedText : Doc) (chunks : List Doc)
    (hed : st.editor = some ed) (htext : trim text ≠ []) :
    containsSeg
      (requestSystemContent
        (sendMessage st chat text selectedText chunks none).2)
      (getHTML ed)
    ∧ (selectedText ≠ [] →
        containsSeg
          (requestSystemContent
            (sendMessage st chat text selectedText chunks none).2)
          selectedText)
    ∧ (sendMessage st chat text selectedText chunks none).1.chatMessages
        = chat.chatMessages
          ++ [{ role := "user", content := text },
              { role := "assistant", content := concatDocs chunks }]
    ∧ (sendMessage st chat text selectedText chunks none).1.isChatLoading
        = false := by
  have htne : (trim text).isEmpty = false := by
    simp [List.isEmpty_iff, htext]
  refine ⟨?_, ?_, ?_, ?_⟩
  · simp only [sendMessage, htne, Bool.false_eq_true, if_false, hed,
      requestSystemContent]
    exact chatSystemContent_embeds_doc _ _
  · intro hselne
    have hse : selectedText.isEmpty = false := by
      simp [List.isEmpty_iff, hselne]
    simp only [sendMessage, htne, Bool.false_eq_true, if_false, hed, hse,
      requestSystemContent]
    exact chatSystemContent_embeds_sel _ _ hselne
  · simp [sendMessage, htne, chatAccumulate_eq]
  · simp [sendMessage, htne]

/-- Claim C10: if the chat completion stream fails at any point during a
send with non-blank text, the user message pushed at the start of the send
remains in the transcript, no assistant message is appended for that send
(every assistant entry of the final transcript was already present
before), and the chat loading flag is reset to false. -/
theorem sendMessage_failure_keeps_user (st : AppState) (chat : ChatState)
    (text selectedText : Doc) (chunks : List Doc) (e : String)
    (htext : trim text ≠ []) :
    (sendMessage st chat text selectedText chunks (some e)).1.chatMessages
      = chat.chatMessages ++ [{ role := "user", content := text }]
    ∧ (sendMessage st chat text selectedText chunks (some e)).1.isChatLoading
        = false
    ∧ ∀ m ∈ (sendMessage st chat text selectedText chunks
        (some e)).1.chatMessages,
        m.role = "assistant" → m ∈ chat.chatMessages := by
  have htne : (trim text).isEmpty = false := by
    simp [List.isEmpty_iff, htext]
  refine ⟨?_, ?_, ?_⟩
  · simp [sendMessage, htne]
  · simp [sendMessage, htne]
  · intro m hm hrole
    simp only [sendMessage, htne, Bool.false_eq_true, if_false] at hm
    simp only [List.mem_append, List.mem_singleton] at hm
    rcases hm with hm | hm
    · exact hm
    · subst hm
      simp at hrole

/-- Witness for claim C1's theorem at a concrete input: one fragment `A`
arriving with accumulated text empty over document `xy` with captured
window start 1. -/
theorem streamLoop_fragment_step_witness :
    streamLoop ⟨some ⟨("xy").data, 1, 2⟩, some ⟨1, 2⟩, true, none, 0⟩ []
        [(("A").data, true)]
      = streamLoop
          ⟨some ⟨replaceWith ("xy").data 1 (1 + 0) ([] ++ ("A").data), 1, 2⟩,
            some ⟨1, 2⟩, true, none, ([] ++ ("A").data).length⟩
          ([] ++ ("A").data) [] :=
  streamLoop_fragment_step
    ⟨some ⟨("xy").data, 1, 2⟩, some ⟨1, 2⟩, true, none, 0⟩
    ⟨("xy").data, 1, 2⟩ ⟨1, 2⟩ [] (("A").data) [] rfl rfl (by decide)

/-- Witness for claim C2's theorem at the spec's scenario: the selection
`quick` of `The quick brown fox.`, with the chunk split
`A` / ` fox` / ` runs.` against the single chunk `A fox runs.`. -/
theorem streamLoop_split_independent_witness :
    streamLoop
        ⟨some ⟨("The quick brown fox.").data, 4, 9⟩, some ⟨4, 9⟩, true, none, 0⟩
        [] [(("A").data, true), ((" fox").data, true), ((" runs.").data, true)]
      = streamLoop
        ⟨some ⟨("The quick brown fox.").data, 4, 9⟩, some ⟨4, 9⟩, true, none, 0⟩
        [] [(("A fox runs.").data, true)]
    ∧ textBetween
        (editorDoc (streamLoop
          ⟨some ⟨("The quick brown fox.").data, 4, 9⟩, some ⟨4, 9⟩, true, none, 0⟩
          [] [(("A").data, true), ((" fox").data, true), ((" runs.").data, true)]))
        4
        (4 + (streamLoop
          ⟨some ⟨("The quick brown fox.").data, 4, 9⟩, some ⟨4, 9⟩, true, none, 0⟩
          [] [(("A").data, true), ((" fox").data, true), ((" runs.").data, true)]).insertedLength)
        = concatFragments
            [(("A").data, true), ((" fox").data, true), ((" runs.").data, true)] :=
  streamLoop_split_independent
    ⟨some ⟨("The quick brown fox.").data, 4, 9⟩, some ⟨4, 9⟩, true, none, 0⟩
    ⟨("The quick brown fox.").data, 4, 9⟩ ⟨4, 9⟩
    (("The ").data) (("quick brown fox.").data)
    [(("A").data, true), ((" fox").data, true), ((" runs.").data, true)]
    [(("A fox runs.").data, true)]
    rfl rfl (by decide) (by decide) rfl (by decide) (by decide) (by decide)

/-- Witness for claim C3's theorem at a concrete input: a state that is
already streaming. -/
theorem active_trigger_noop_witness :
    summarize ⟨some ⟨("ab").data, 0, 1⟩, none, true, none, 0⟩ [] none
      = (⟨some ⟨("ab").data, 0, 1⟩, none, true, none, 0⟩, none)
    ∧ summarizeHandler ⟨some ⟨("ab").data, 0, 1⟩, none, true, none, 0⟩ [] none
      = (⟨some ⟨("ab").data, 0, 1⟩, none, true, none, 0⟩, none)
    ∧ improveHandler ⟨some ⟨("ab").data, 0, 1⟩, none, true, none, 0⟩ [] none
      = (⟨some ⟨("ab").data, 0, 1⟩, none, true, none, 0⟩, none)
    ∧ completeHandler ⟨some ⟨("ab").data, 0, 1⟩, none, true, none, 0⟩ [] none
      = (⟨some ⟨("ab").data, 0, 1⟩, none, true, none, 0⟩, none) :=
  active_trigger_noop ⟨some ⟨("ab").data, 0, 1⟩, none, true, none, 0⟩ [] none
    rfl

/-- Witness for claim C4's theorem at a concrete input: an idle state whose
live selection is empty (start = end = 1). -/
theorem empty_selection_noop_witness :
    summarize ⟨some ⟨("ab").data, 1, 1⟩, none, false, none, 0⟩ [] none
      = (⟨some ⟨("ab").data, 1, 1⟩, none, false, none, 0⟩, none)
    ∧ summarizeHandler ⟨some ⟨("ab").data, 1, 1⟩, none, false, none, 0⟩ [] none
      = (⟨some ⟨("ab").data, 1, 1⟩, none, false, none, 0⟩, none)
    ∧ improveHandler ⟨some ⟨("ab").data, 1, 1⟩, none, false, none, 0⟩ [] none
      = (⟨some ⟨("ab").data, 1, 1⟩, none, false, none, 0⟩, none)
    ∧ completeHandler ⟨some ⟨("ab").data, 1, 1⟩, none, false, none, 0⟩ [] none
      = (⟨some ⟨("ab").data, 1, 1⟩, none, false, none, 0⟩, none) :=
  empty_selection_noop ⟨some ⟨("ab").data, 1, 1⟩, none, false, none, 0⟩
    ⟨("ab").data, 1, 1⟩ [] none rfl rfl

/-- Witness for claim C5's theorem at a concrete input: a fragment whose
dispatch fails, followed by an empty remainder. -/
theorem replace_failure_continues_witness :
    streamLoop ⟨some ⟨("xy").data, 1, 2⟩, some ⟨1, 2⟩, true, none, 0⟩ []
        [(("A").data, false)]
      = streamLoop
          ⟨some ⟨("xy").data, 1, 2⟩, some ⟨1, 2⟩, true,
            some "Error replacing selection", 0⟩
          ([] ++ ("A").data) []
    ∧ (⟨some ⟨("xy").data, 1, 2⟩, some ⟨1, 2⟩, true,
        some "Error replacing selection", 0⟩ : AppState).editor
      = (⟨some ⟨("xy").data, 1, 2⟩, some ⟨1, 2⟩, true, none, 0⟩ :
          AppState).editor
    ∧ (⟨some ⟨("xy").data, 1, 2⟩, some ⟨1, 2⟩, true,
        some "Error replacing selection", 0⟩ : AppState).insertedLength
      = (⟨some ⟨("xy").data, 1, 2⟩, some ⟨1, 2⟩, true, none, 0⟩ :
          AppState).insertedLength :=
  replace_failure_continues
    ⟨some ⟨("xy").data, 1, 2⟩, some ⟨1, 2⟩, true, none, 0⟩
    ⟨("xy").data, 1, 2⟩ ⟨1, 2⟩ [] (("A").data) [] rfl rfl (by decide)

/-- Witness for claim C6's theorem at the spec's failure scenario: the
stream yields one fragment and then fails with `CompletionFailed`. -/
theorem summarize_resets_to_idle_witness :
    ((summarize ⟨some ⟨("The quick brown fox.").data, 4, 9⟩, none, false, none, 0⟩
        [(("A").data, true)] (some "CompletionFailed")).1.isStreaming = false
      ∧ (summarize ⟨some ⟨("The quick brown fox.").data, 4, 9⟩, none, false, none, 0⟩
          [(("A").data, true)] (some "CompletionFailed")).1.selectionRange = none
      ∧ (summarize ⟨some ⟨("The quick brown fox.").data, 4, 9⟩, none, false, none, 0⟩
          [(("A").data, true)] (some "CompletionFailed")).1.insertedLength = 0)
    ∧ (∀ (ed : EditorModel) (pre post : Doc) (msg : String),
        (⟨some ⟨("The quick brown fox.").data, 4, 9⟩, none, false, none, 0⟩ :
          AppState).editor = some ed →
        ed.selFrom = pre.length → ed.doc = pre ++ post →
        textBetween ed.doc ed.selFrom ed.selTo ≠ [] →
        (∀ c ∈ [(("A").data, true)], c.2 = true) →
        (summarize
            ⟨some ⟨("The quick brown fox.").data, 4, 9⟩, none, false, none, 0⟩
            [(("A").data, true)] (some msg)).1.editor
            = some { ed with
                doc := pre ++ concatFragments [(("A").data, true)] ++ post }
          ∧ (summarize
              ⟨some ⟨("The quick brown fox.").data, 4, 9⟩, none, false, none, 0⟩
              [(("A").data, true)] (some msg)).1.error = some msg) :=
  summarize_resets_to_idle
    ⟨some ⟨("The quick brown fox.").data, 4, 9⟩, none, false, none, 0⟩
    [(("A").data, true)] (some "CompletionFailed") (by decide) rfl

/-- Witness for the amended claim C8's theorem at a concrete input: a send
with text `hi`, selection `sel` and document `mydoc`. -/
theorem sendMessage_grounding_witness :
    containsSeg
      (requestSystemContent
        (sendMessage ⟨some ⟨("mydoc").data, 0, 0⟩, none, false, none, 0⟩
          ⟨[], [], false⟩ ("hi").data ("sel").data
          [("A ").data, ("fox").data] none).2)
      (getHTML ⟨("mydoc").data, 0, 0⟩)
    ∧ (("sel").data ≠ [] →
        containsSeg
          (requestSystemContent
            (sendMessage ⟨some ⟨("mydoc").data, 0, 0⟩, none, false, none, 0⟩
              ⟨[], [], false⟩ ("hi").data ("sel").data
              [("A ").data, ("fox").data] none).2)
          (("sel").data))
    ∧ (sendMessage ⟨some ⟨("mydoc").data, 0, 0⟩, none, false, none, 0⟩
        ⟨[], [], false⟩ ("hi").data ("sel").data
        [("A ").data, ("fox").data] none).1.chatMessages
      = [] ++ [{ role := "user", content := ("hi").data },
          { role := "assistant",
            content := concatDocs [("A ").data, ("fox").data] }]
    ∧ (sendMessage ⟨some ⟨("mydoc").data, 0, 0⟩, none, false, none, 0⟩
        ⟨[], [], false⟩ ("hi").data ("sel").data
        [("A ").data, ("fox").data] none).1.isChatLoading = false :=
  sendMessage_grounding ⟨some ⟨("mydoc").data, 0, 0⟩, none, false, none, 0⟩
    ⟨("mydoc").data, 0, 0⟩ ⟨[], [], false⟩ ("hi").data ("sel").data
    [("A ").data, ("fox").data] rfl (by decide)

/-- Witness for claim C10's theorem at a concrete input: a send with text
`hi` whose stream fails after one delta. -/
theorem sendMessage_failure_keeps_user_witness :
    (sendMessage ⟨some ⟨("mydoc").data, 0, 0⟩, none, false, none, 0⟩
        ⟨[], [], false⟩ ("hi").data [] [("A").data]
        (some "network down")).1.chatMessages
      = [] ++ [{ role := "user", content := ("hi").data }]
    ∧ (sendMessage ⟨some ⟨("mydoc").data, 0, 0⟩, none, false, none, 0⟩
        ⟨[], [], false⟩ ("hi").data [] [("A").data]
        (some "network down")).1.isChatLoading = false
    ∧ ∀ m ∈ (sendMessage ⟨some ⟨("mydoc").data, 0, 0⟩, none, false, none, 0⟩
        ⟨[], [], false⟩ ("hi").data [] [("A").data]
        (some "network down")).1.chatMessages,
        m.role = "assistant" →
          m ∈ (⟨[], [], false⟩ : ChatState).chatMessages :=
  sendMessage_failure_keeps_user
    ⟨some ⟨("mydoc").data, 0, 0⟩, none, false, none, 0⟩ ⟨[], [], false⟩
    ("hi").data [] [("A").data] "network down" (by decide)

end AkbariEditor
